import Mathlib

set_option maxRecDepth 8192

/-!
Shallow embedding of `src/assets/logo/gen_images.py` (the bloom logo asset
generator) and proofs of the specification claims about it.

Modelling conventions:
* Python floats are modelled as rationals (`ℚ`); Python ints as `ℤ`.
* Python `round` (round half to even) is modelled by `pyRound`; Python
  floor division `//` by `Int.fdiv`; Python `int()` truncation by `py_int`.
* PIL images are modelled symbolically by the `Img` tree, one constructor
  per imaging operation the script performs; `Img.width`/`Img.height`
  compute the pixel dimensions each operation yields.
* The aggdraw canvas operations performed by `render_svg` are modelled as
  the list of fill operations `render_svg_ops` (the script fills paths with
  brushes only; it never strokes).
* The font of the banner is external to the repository, so the text
  bounding box returned by `ImageDraw.textbbox` is an oracle parameter
  (`BBox`), and the file-system `Path.exists` check is an oracle
  `String → Bool`.
-/

/-- A point of the SVG coordinate plane (`svgelements` point). -/
structure Pt where
  x : ℚ
  y : ℚ

def Pt.smul (p : Pt) (k : ℚ) : Pt := ⟨p.x * k, p.y * k⟩

def Pt.add (p q : Pt) : Pt := ⟨p.x + q.x, p.y + q.y⟩

def Pt.sub (p q : Pt) : Pt := ⟨p.x - q.x, p.y - q.y⟩

/-- An `svgelements` color: either the explicit "none" color or an RGB
triple with an opacity in `[0, 1]`. A Python `None` fill is modelled by
`Option.none` at the use site. -/
inductive SvgColor where
  | none
  | rgba (r g b : ℤ) (opacity : ℚ)

/-- One path segment as produced by `Shape.segments(transformed=True)`:
move, line, cubic bezier, quadratic bezier, elliptical arc, or close. -/
inductive Seg where
  | move (e : Pt)
  | line (e : Pt)
  | cubic (c1 c2 e : Pt)
  | quad (s c e : Pt)
  | arc (s : Pt) (rx ry rot : ℚ) (largeArc sweep : Bool) (e : Pt)
  | close

/-- An SVG shape: its (transformed) segment list and its fill color. -/
structure Shape where
  segments : List Seg
  fill : Option SvgColor

/-- An element of the parsed SVG document: a shape, or anything else
(skipped by `render_svg`). -/
inductive Element where
  | shape (sh : Shape)
  | other

/-- The parsed SVG document: its declared width (if any, as used by
`svg.width` truthiness) and its element list. -/
structure Doc where
  width : Option ℚ
  elements : List Element

/-- One aggdraw path command, as built by `shape_to_aggpath`. -/
inductive PathCmd where
  | moveto (x y : ℚ)
  | lineto (x y : ℚ)
  | curveto (c1x c1y c2x c2y x y : ℚ)
  | close

/-- Build a `curveto` command from control points and endpoint. -/
def mkCurveTo (c1 c2 e : Pt) : PathCmd :=
  PathCmd.curveto c1.x c1.y c2.x c2.y e.x e.y

-- Compile-time constants of the script.

def ICO_SIZES : List ℤ := [256, 128, 64, 48, 32, 16]

def BLUE : ℤ × ℤ × ℤ := (0, 132, 190)

/-- The constant `0.1014` (named with a ratio suffix in the script). -/
def CORNER_RADIUS_FRAC : ℚ := 507 / 5000

/-- The constant `0.78` (named with a ratio suffix in the script). -/
def ICON_GLYPH_FRAC : ℚ := 39 / 50

def BANNER_LOGO_H : ℤ := 72

def BANNER_FONT_SIZE : ℤ := 72

def BANNER_INNER_PAD : ℤ := 16

def FONT_WIN : String := "C:/Windows/Fonts/segoeuib.ttf"

def FONT_LINUX : String := "/usr/share/fonts/truetype/dejavu/DejaVuSans-Bold.ttf"

def FONT_MAC : String := "/System/Library/Fonts/Helvetica.ttc"

def BANNER_FONT_PATHS : List String := [FONT_WIN, FONT_LINUX, FONT_MAC]

/-- Python `int()` on a rational: truncation toward zero. -/
def py_int (q : ℚ) : ℤ := Int.tdiv q.num q.den

/-- Python `round()` on a rational: round half to even. -/
def pyRound (q : ℚ) : ℤ :=
  if q - ⌊q⌋ < 1 / 2 then ⌊q⌋
  else if 1 / 2 < q - ⌊q⌋ then ⌊q⌋ + 1
  else if 2 ∣ ⌊q⌋ then ⌊q⌋ else ⌊q⌋ + 1

/-- `color_to_rgba`: `None` or the explicit "none" color yield `None`;
otherwise the RGB components with the opacity scaled to `[0, 255]` and
truncated to an int. -/
def color_to_rgba : Option SvgColor → Option (ℤ × ℤ × ℤ × ℤ)
  | Option.none => Option.none
  | some SvgColor.none => Option.none
  | some (SvgColor.rgba r g b op) => some (r, g, b, py_int (op * 255))

/-- The aggdraw command emitted for one segment by `shape_to_aggpath`. -/
def segCmd (scale : ℚ) : Seg → PathCmd
  | Seg.move e => PathCmd.moveto (e.x * scale) (e.y * scale)
  | Seg.line e => PathCmd.lineto (e.x * scale) (e.y * scale)
  | Seg.cubic c1 c2 e =>
      PathCmd.curveto (c1.x * scale) (c1.y * scale)
        (c2.x * scale) (c2.y * scale) (e.x * scale) (e.y * scale)
  | Seg.quad s c e =>
      PathCmd.curveto
        (s.x * scale + 2 / 3 * (c.x * scale - s.x * scale))
        (s.y * scale + 2 / 3 * (c.y * scale - s.y * scale))
        (e.x * scale + 2 / 3 * (c.x * scale - e.x * scale))
        (e.y * scale + 2 / 3 * (c.y * scale - e.y * scale))
        (e.x * scale) (e.y * scale)
  | Seg.arc _ _ _ _ _ _ e => PathCmd.lineto (e.x * scale) (e.y * scale)
  | Seg.close => PathCmd.close

/-- `shape_to_aggpath`: the command list built for a shape at a scale. -/
def shape_to_aggpath (sh : Shape) (scale : ℚ) : List PathCmd :=
  sh.segments.map (segCmd scale)

/-- One canvas-filling operation `canvas.path(path, Brush(rgb, opacity))`. -/
structure DrawOp where
  path : List PathCmd
  rgb : ℤ × ℤ × ℤ
  opacity : ℤ

/-- The fill operation a single shape contributes in `render_svg`
(`None` when the shape has no usable fill and is skipped). -/
def shape_op (scale : ℚ) (sh : Shape) : Option DrawOp :=
  match color_to_rgba sh.fill with
  | Option.none => Option.none
  | some (r, g, b, a) => some ⟨shape_to_aggpath sh scale, (r, g, b), a⟩

/-- The fill operation a document element contributes in `render_svg`
(non-shape elements are skipped). -/
def elem_op (scale : ℚ) : Element → Option DrawOp
  | Element.shape sh => shape_op scale sh
  | Element.other => Option.none

/-- The view width used by `render_svg`: `float(svg.width) if svg.width
else size` (Python truthiness: absent or zero width falls back to size). -/
def svg_vw (doc : Doc) (size : ℤ) : ℚ :=
  match doc.width with
  | Option.none => (size : ℚ)
  | some w => if w = 0 then (size : ℚ) else w

/-- The uniform scale factor `size / vw` used by `render_svg`. -/
def svg_scale (doc : Doc) (size : ℤ) : ℚ := (size : ℚ) / svg_vw doc size

/-- The ordered list of canvas fill operations `render_svg` performs. -/
def render_svg_ops (doc : Doc) (size : ℤ) : List DrawOp :=
  doc.elements.filterMap (elem_op (svg_scale doc size))

/-- The resampling filter used by every `resize` in the script. -/
inductive Resample where
  | lanczos

/-- Symbolic PIL image: one constructor per imaging operation used by the
script. `paste base overlay ox oy mask` is `base.paste(overlay, (ox, oy),
mask)`; `roundRect` is a blank canvas with `rounded_rectangle` drawn on it;
`text` is `draw.text` applied to `base`. -/
inductive Img where
  | blank (w h : ℤ) (color : ℤ × ℤ × ℤ × ℤ)
  | svgRender (doc : Doc) (size : ℤ)
  | resize (src : Img) (w h : ℤ) (filter : Resample)
  | paste (base overlay : Img) (ox oy : ℤ) (mask : Img)
  | roundRect (base : Img) (x0 y0 x1 y1 : ℤ) (radius : ℤ) (fill : ℤ × ℤ × ℤ × ℤ)
  | text (base : Img) (x y : ℤ) (s : String) (fill : ℤ × ℤ × ℤ × ℤ)

instance : Inhabited Img := ⟨Img.blank 0 0 (0, 0, 0, 0)⟩

/-- Pixel width of a symbolic image. -/
def Img.width : Img → ℤ
  | Img.blank w _ _ => w
  | Img.svgRender _ size => size
  | Img.resize _ w _ _ => w
  | Img.paste base _ _ _ _ => base.width
  | Img.roundRect base _ _ _ _ _ _ => base.width
  | Img.text base _ _ _ _ => base.width

/-- Pixel height of a symbolic image. -/
def Img.height : Img → ℤ
  | Img.blank _ h _ => h
  | Img.svgRender _ size => size
  | Img.resize _ _ h _ => h
  | Img.paste base _ _ _ _ => base.height
  | Img.roundRect base _ _ _ _ _ _ => base.height
  | Img.text base _ _ _ _ => base.height

/-- The corner radius computed by `blue_rounded_rect`:
`max(1, round(min(w, h) * 0.1014))`. -/
def rect_radius (w h : ℤ) : ℤ :=
  max 1 (pyRound (((min w h : ℤ) : ℚ) * CORNER_RADIUS_FRAC))

/-- `blue_rounded_rect`: a transparent canvas with a filled rounded
rectangle over `(0, 0, w-1, h-1)` in opaque blue. -/
def blue_rounded_rect (w h : ℤ) : Img :=
  Img.roundRect (Img.blank w h (0, 0, 0, 0)) 0 0 (w - 1) (h - 1)
    (rect_radius w h) (BLUE.1, BLUE.2.1, BLUE.2.2, 255)

/-- The glyph size computed by `render_icon`: `round(size * 0.78)`. -/
def glyph_size (size : ℤ) : ℤ := pyRound ((size : ℚ) * ICON_GLYPH_FRAC)

/-- The paste offset computed by `render_icon`:
`(size - glyph_size) // 2` (Python floor division). -/
def icon_offset (size : ℤ) : ℤ := Int.fdiv (size - glyph_size size) 2

/-- `render_icon`: glyph rendered at 4x its target size, Lanczos-downsampled
to the target size, pasted centered onto the blue rounded rectangle with
the glyph itself as the paste mask. -/
def render_icon (doc : Doc) (size : ℤ) : Img :=
  let bg := blue_rounded_rect size size
  let gs := glyph_size size
  let glyph := Img.resize (Img.svgRender doc (gs * 4)) gs gs Resample.lanczos
  Img.paste bg glyph (icon_offset size) (icon_offset size) glyph

/-- The list `[render_icon(svg_content, s) for s in ICO_SIZES]` built by the
script entry point. -/
def ico_images (doc : Doc) : List Img := ICO_SIZES.map (render_icon doc)

/-- The multi-resolution icon container written by
`images[0].save(..., append_images=images[1:])`. -/
structure IcoFile where
  primary : Img
  appended : List Img

/-- The icon container assembled by the entry point: first rendered image
as primary, the rest appended. -/
def ico_file (doc : Doc) : IcoFile :=
  ⟨(ico_images doc).headI, (ico_images doc).tail⟩

/-- The text bounding box `(x0, y0, x1, y1)` reported by
`ImageDraw.textbbox((0, 0), "loom", font)` for the selected font. -/
structure BBox where
  x0 : ℤ
  y0 : ℤ
  x1 : ℤ
  y1 : ℤ

/-- Measured text width `bbox[2] - bbox[0]`. -/
def banner_tw (bbox : BBox) : ℤ := bbox.x1 - bbox.x0

/-- Measured text height `bbox[3] - bbox[1]`. -/
def banner_th (bbox : BBox) : ℤ := bbox.y1 - bbox.y0

/-- Banner width `W = BANNER_LOGO_H + tw + BANNER_INNER_PAD * 2`. -/
def banner_W (bbox : BBox) : ℤ :=
  BANNER_LOGO_H + banner_tw bbox + BANNER_INNER_PAD * 2

/-- Banner height `H = max(BANNER_LOGO_H, th) + BANNER_INNER_PAD * 2`. -/
def banner_H (bbox : BBox) : ℤ :=
  max BANNER_LOGO_H (banner_th bbox) + BANNER_INNER_PAD * 2

/-- Text y-position `ty = (H - BANNER_INNER_PAD) - th - bbox[1]`. -/
def banner_ty (bbox : BBox) : ℤ :=
  (banner_H bbox - BANNER_INNER_PAD) - banner_th bbox - bbox.y0

/-- `render_banner`: blue rounded rectangle rendered at 4x and
Lanczos-downsampled, glyph pasted at the left with vertical centering,
then the text "loom" drawn to the right of the glyph in opaque white. -/
def render_banner (doc : Doc) (bbox : BBox) : Img :=
  let glyph := Img.resize (Img.svgRender doc (BANNER_LOGO_H * 4))
    BANNER_LOGO_H BANNER_LOGO_H Resample.lanczos
  let banner := Img.resize
    (blue_rounded_rect (banner_W bbox * 4) (banner_H bbox * 4))
    (banner_W bbox) (banner_H bbox) Resample.lanczos
  let pasted := Img.paste banner glyph BANNER_INNER_PAD
    (Int.fdiv (banner_H bbox - BANNER_LOGO_H) 2) glyph
  Img.text pasted (BANNER_INNER_PAD + BANNER_LOGO_H) (banner_ty bbox)
    "loom" (255, 255, 255, 255)

/-- All `draw.text` operations contained in a symbolic image, in order. -/
def textOps : Img → List (ℤ × ℤ × String × (ℤ × ℤ × ℤ × ℤ))
  | Img.blank _ _ _ => []
  | Img.svgRender _ _ => []
  | Img.resize src _ _ _ => textOps src
  | Img.paste base overlay _ _ _ => textOps base ++ textOps overlay
  | Img.roundRect base _ _ _ _ _ _ => textOps base
  | Img.text base x y s f => textOps base ++ [(x, y, s, f)]

/-- Font resolution: `next((p for p in BANNER_FONT_PATHS if
Path(p).exists()), None)`, the file-system check abstracted as `ex`. -/
def resolve_font (ex : String → Bool) : Option String :=
  BANNER_FONT_PATHS.find? ex

/-- Python `repr` of a list of strings, as interpolated by the f-string of
the error message. -/
def py_str_list (l : List String) : String :=
  "[" ++ String.intercalate ", " (l.map (fun s => "\x27" ++ s ++ "\x27")) ++ "]"

/-- The message of the only `raise` in the script. -/
def font_error_msg : String :=
  "No suitable font found. Tried: " ++ py_str_list BANNER_FONT_PATHS

/-- The files the entry point produces on success. -/
structure Outputs where
  ico : IcoFile
  png32 : Img
  png64 : Img
  banner : Img

/-- A standalone PNG: `render_icon(svg_content, size * 4).resize((size,
size), LANCZOS)`. -/
def png_out (doc : Doc) (size : ℤ) : Img :=
  Img.resize (render_icon doc (size * 4)) size size Resample.lanczos

/-- The script entry point: builds the icon container and PNGs, resolves
the banner font, and either aborts with the font error or produces all
outputs. -/
def main_run (doc : Doc) (ex : String → Bool) (bbox : BBox) :
    Except String Outputs :=
  match resolve_font ex with
  | Option.none => Except.error font_error_msg
  | some _ =>
      Except.ok ⟨ico_file doc, png_out doc 32, png_out doc 64,
        render_banner doc bbox⟩

/-- A trivial concrete document (empty SVG), for concrete instantiation. -/
def sample_doc : Doc := ⟨Option.none, []⟩

/-- A trivial concrete text bounding box, for concrete instantiation. -/
def sample_bbox : BBox := ⟨0, 0, 0, 0⟩

-- Helper lemmas about `pyRound`.

theorem pyRound_le (q : ℚ) : (pyRound q : ℚ) ≤ q + 1 / 2 := by
  have hf : (⌊q⌋ : ℚ) ≤ q := Int.floor_le q
  have hc : q < ⌊q⌋ + 1 := Int.lt_floor_add_one q
  unfold pyRound
  split_ifs <;> push_cast <;> linarith

theorem pyRound_ge (q : ℚ) : q - 1 / 2 ≤ (pyRound q : ℚ) := by
  have hf : (⌊q⌋ : ℚ) ≤ q := Int.floor_le q
  have hc : q < ⌊q⌋ + 1 := Int.lt_floor_add_one q
  unfold pyRound
  split_ifs <;> push_cast <;> linarith

-- Claim theorems.

/-- Claim C1: running the pipeline builds exactly 6 icon frames at sizes
256, 128, 64, 48, 32, 16, in that order, each frame a square raster image
of its size, with the first image as primary and the other five appended
to the icon container. -/
theorem ico_pipeline_spec (doc : Doc) :
    (ico_images doc).length = 6 ∧
    ico_images doc =
      [render_icon doc 256, render_icon doc 128, render_icon doc 64,
       render_icon doc 48, render_icon doc 32, render_icon doc 16] ∧
    (ico_images doc).map Img.width = ICO_SIZES ∧
    (ico_images doc).map Img.height = ICO_SIZES ∧
    (ico_file doc).primary = render_icon doc 256 ∧
    (ico_file doc).appended =
      [render_icon doc 128, render_icon doc 64, render_icon doc 48,
       render_icon doc 32, render_icon doc 16] :=
  ⟨rfl, rfl, rfl, rfl, rfl, rfl⟩

/-- Claim C3: every quadratic segment with start S, control C, end E is
emitted as a cubic curve whose control points are exactly
scaled S + 2/3 * (scaled C - scaled S) and scaled E + 2/3 * (scaled C -
scaled E), with endpoint scaled E. -/
theorem quad_promoted_to_cubic (scale : ℚ) (S C E : Pt)
    (fill : Option SvgColor) (l1 l2 : List Seg) :
    shape_to_aggpath ⟨l1 ++ Seg.quad S C E :: l2, fill⟩ scale =
      shape_to_aggpath ⟨l1, fill⟩ scale ++
        mkCurveTo
          (Pt.add (Pt.smul S scale)
            (Pt.smul (Pt.sub (Pt.smul C scale) (Pt.smul S scale)) (2 / 3)))
          (Pt.add (Pt.smul E scale)
            (Pt.smul (Pt.sub (Pt.smul C scale) (Pt.smul E scale)) (2 / 3)))
          (Pt.smul E scale) ::
        shape_to_aggpath ⟨l2, fill⟩ scale := by
  simp only [shape_to_aggpath, List.map_append, List.map_cons]
  congr 2
  simp only [segCmd, mkCurveTo, Pt.add, Pt.sub, Pt.smul]
  congr 1 <;> ring

/-- Claim C9: every arc segment is emitted as a straight line to the
scaled endpoint, independently of all the arc parameters. -/
theorem arc_rendered_as_chord (scale : ℚ) (S : Pt) (rx ry rot : ℚ)
    (laf sw : Bool) (E : Pt) (fill : Option SvgColor) (l1 l2 : List Seg) :
    shape_to_aggpath ⟨l1 ++ Seg.arc S rx ry rot laf sw E :: l2, fill⟩ scale =
      shape_to_aggpath ⟨l1, fill⟩ scale ++
        PathCmd.lineto (E.x * scale) (E.y * scale) ::
        shape_to_aggpath ⟨l2, fill⟩ scale := by
  simp only [shape_to_aggpath, List.map_append, List.map_cons, segCmd]

/-- Claim C8: a shape whose fill is the explicit "none" color contributes
no canvas operation at all: rendering a document with it equals rendering
the same document without it. -/
theorem none_fill_skipped (w : Option ℚ) (size : ℤ) (segs : List Seg)
    (l1 l2 : List Element) :
    render_svg_ops ⟨w, l1 ++ Element.shape ⟨segs, some SvgColor.none⟩ :: l2⟩
        size =
      render_svg_ops ⟨w, l1 ++ l2⟩ size ∧
    color_to_rgba (some SvgColor.none) = Option.none := by
  refine ⟨?_, rfl⟩
  simp [render_svg_ops, svg_scale, svg_vw, List.filterMap_append,
    List.filterMap_cons, elem_op, shape_op, color_to_rgba]

/-- Claim C4: icon assembly at any size is exactly: the blue rounded
rectangle of that size, with the glyph rendered at 4x its target size
round(size * 0.78), Lanczos-downsampled to the target size, pasted at
offset (size - glyph_size) // 2 on both axes using the glyph itself as
the paste mask; the result is exactly size x size pixels. -/
theorem render_icon_assembly (doc : Doc) (size : ℤ) :
    render_icon doc size =
      Img.paste (blue_rounded_rect size size)
        (Img.resize (Img.svgRender doc (glyph_size size * 4))
          (glyph_size size) (glyph_size size) Resample.lanczos)
        (Int.fdiv (size - glyph_size size) 2)
        (Int.fdiv (size - glyph_size size) 2)
        (Img.resize (Img.svgRender doc (glyph_size size * 4))
          (glyph_size size) (glyph_size size) Resample.lanczos) ∧
    glyph_size size = pyRound ((size : ℚ) * ICON_GLYPH_FRAC) ∧
    Img.width (render_icon doc size) = size ∧
    Img.height (render_icon doc size) = size :=
  ⟨rfl, rfl, rfl, rfl⟩

/-- Claim C5: the rounded-rectangle background of any width and height is
a filled rounded rectangle of the constant blue at alpha 255, over the
coordinates (0, 0, w-1, h-1), with corner radius round(0.1014 * min(w, h))
and never less than 1 pixel. -/
theorem rounded_rect_spec (w h : ℤ) :
    blue_rounded_rect w h =
      Img.roundRect (Img.blank w h (0, 0, 0, 0)) 0 0 (w - 1) (h - 1)
        (max 1 (pyRound (((min w h : ℤ) : ℚ) * CORNER_RADIUS_FRAC)))
        (0, 132, 190, 255) ∧
    1 ≤ rect_radius w h ∧
    Img.width (blue_rounded_rect w h) = w ∧
    Img.height (blue_rounded_rect w h) = h :=
  ⟨rfl, le_max_left 1 _, rfl, rfl⟩

/-- Claim C6: the banner canvas is glyph height + text width + 2 * padding
wide and max(glyph height, text height) + 2 * padding tall, where the text
width and height come from the measured bounding box. -/
theorem banner_canvas_dims (doc : Doc) (bbox : BBox) :
    Img.width (render_banner doc bbox) =
      BANNER_LOGO_H + (bbox.x1 - bbox.x0) + 2 * BANNER_INNER_PAD ∧
    Img.height (render_banner doc bbox) =
      max BANNER_LOGO_H (bbox.y1 - bbox.y0) + 2 * BANNER_INNER_PAD := by
  refine ⟨?_, ?_⟩ <;>
    simp only [render_banner, Img.width, Img.height, banner_W, banner_H,
      banner_tw, banner_th, BANNER_LOGO_H, BANNER_INNER_PAD] <;>
    omega

/-- Claim C7: the banner text is the single text operation, drawn at
x = padding + glyph height in opaque white, at a y position such that the
bottom of the text bounding box (y + bbox offset + text height) lands
exactly on height - padding. -/
theorem banner_text_placement (doc : Doc) (bbox : BBox) :
    textOps (render_banner doc bbox) =
      [(BANNER_INNER_PAD + BANNER_LOGO_H, banner_ty bbox, "loom",
        (255, 255, 255, 255))] ∧
    banner_ty bbox + bbox.y0 + banner_th bbox =
      banner_H bbox - BANNER_INNER_PAD ∧
    banner_ty bbox =
      (banner_H bbox - BANNER_INNER_PAD) - banner_th bbox - bbox.y0 := by
  refine ⟨?_, ?_, rfl⟩
  · simp [render_banner, textOps, blue_rounded_rect]
  · simp only [banner_ty]
    ring

/-- Claim C2: font resolution picks the first existing candidate of the
fixed list (in particular the last one when only it exists); when none
exists the run aborts with the error message that enumerates all three
attempted paths, and a missing font is the only error condition of the
run. -/
theorem font_resolution_spec :
    (∀ ex : String → Bool,
        resolve_font ex =
          (if ex FONT_WIN then some FONT_WIN
           else if ex FONT_LINUX then some FONT_LINUX
           else if ex FONT_MAC then some FONT_MAC
           else Option.none)) ∧
    (∀ ex : String → Bool,
        ex FONT_WIN = false → ex FONT_LINUX = false → ex FONT_MAC = true →
        resolve_font ex = some FONT_MAC) ∧
    (∀ (doc : Doc) (ex : String → Bool) (bbox : BBox),
        (∀ p ∈ BANNER_FONT_PATHS, ex p = false) →
        main_run doc ex bbox = Except.error font_error_msg) ∧
    (∀ p ∈ BANNER_FONT_PATHS, ∃ l r : String,
        font_error_msg = l ++ (p ++ r)) ∧
    (∀ (doc : Doc) (ex : String → Bool) (bbox : BBox),
        (∃ e, main_run doc ex bbox = Except.error e) ↔
          ∀ p ∈ BANNER_FONT_PATHS, ex p = false) := by
  have hfind : ∀ ex : String → Bool,
      resolve_font ex =
        (if ex FONT_WIN then some FONT_WIN
         else if ex FONT_LINUX then some FONT_LINUX
         else if ex FONT_MAC then some FONT_MAC
         else Option.none) := by
    intro ex
    cases hw : ex FONT_WIN <;> cases hl : ex FONT_LINUX <;>
      cases hm : ex FONT_MAC <;>
      simp [resolve_font, BANNER_FONT_PATHS, List.find?, hw, hl, hm]
  refine ⟨hfind, ?_, ?_, ?_, ?_⟩
  · intro ex hw hl hm
    rw [hfind ex, hw, hl, hm]
    simp
  · intro doc ex bbox hall
    have hw := hall FONT_WIN (by simp [BANNER_FONT_PATHS])
    have hl := hall FONT_LINUX (by simp [BANNER_FONT_PATHS])
    have hm := hall FONT_MAC (by simp [BANNER_FONT_PATHS])
    rw [main_run, hfind ex, hw, hl, hm]
    simp
  · intro p hp
    simp only [BANNER_FONT_PATHS, List.mem_cons, List.not_mem_nil,
      or_false] at hp
    rcases hp with hp | hp | hp <;> subst hp
    · exact ⟨"No suitable font found. Tried: [\x27",
        "\x27, \x27/usr/share/fonts/truetype/dejavu/DejaVuSans-Bold.ttf\x27, \x27/System/Library/Fonts/Helvetica.ttc\x27]",
        by decide⟩
    · exact ⟨"No suitable font found. Tried: [\x27C:/Windows/Fonts/segoeuib.ttf\x27, \x27",
        "\x27, \x27/System/Library/Fonts/Helvetica.ttc\x27]", by decide⟩
    · exact ⟨"No suitable font found. Tried: [\x27C:/Windows/Fonts/segoeuib.ttf\x27, \x27/usr/share/fonts/truetype/dejavu/DejaVuSans-Bold.ttf\x27, \x27",
        "\x27]", by decide⟩
  · intro doc ex bbox
    constructor
    · rintro ⟨e, he⟩ p hp
      cases hfont : resolve_font ex with
      | some q => rw [main_run, hfont] at he; cases he
      | none =>
          have := List.find?_eq_none.mp hfont p hp
          simpa using this
    · intro hall
      have hw := hall FONT_WIN (by simp [BANNER_FONT_PATHS])
      have hl := hall FONT_LINUX (by simp [BANNER_FONT_PATHS])
      have hm := hall FONT_MAC (by simp [BANNER_FONT_PATHS])
      exact ⟨font_error_msg, by rw [main_run, hfind ex, hw, hl, hm]; simp⟩

/-- Witness for claim C2: with only the macOS path existing the macOS path
is selected, and with no path existing the run aborts with the error
message. -/
theorem font_resolution_spec_witness :
    resolve_font (fun p => p == FONT_MAC) = some FONT_MAC ∧
    main_run sample_doc (fun _ => false) sample_bbox =
      Except.error font_error_msg :=
  ⟨font_resolution_spec.2.1 (fun p => p == FONT_MAC)
      (by decide) (by decide) (by decide),
   font_resolution_spec.2.2.1 sample_doc (fun _ => false) sample_bbox
      (fun p _ => rfl)⟩

/-- Claim C10: for every icon size at least 1, the glyph size
round(size * 0.78) lies between 1 and the icon size, the paste offset
(size - glyph_size) // 2 is non-negative, and offset + glyph size stays
within the canvas. -/
theorem glyph_fits_in_icon (size : ℤ) (h : 1 ≤ size) :
    1 ≤ glyph_size size ∧ glyph_size size ≤ size ∧
    0 ≤ icon_offset size ∧ icon_offset size + glyph_size size ≤ size := by
  have hq : (1 : ℚ) ≤ (size : ℚ) := by exact_mod_cast h
  have hl : (size : ℚ) * ICON_GLYPH_FRAC - 1 / 2 ≤
      ((glyph_size size : ℤ) : ℚ) := pyRound_ge _
  have hu : ((glyph_size size : ℤ) : ℚ) ≤
      (size : ℚ) * ICON_GLYPH_FRAC + 1 / 2 := pyRound_le _
  have hfrac : ICON_GLYPH_FRAC = 39 / 50 := rfl
  rw [hfrac] at hl hu
  have h1 : 1 ≤ glyph_size size := by
    have hstep : (1 : ℚ) * (39 / 50) ≤ (size : ℚ) * (39 / 50) := by
      apply mul_le_mul_of_nonneg_right hq
      norm_num
    have hpos : (0 : ℚ) < ((glyph_size size : ℤ) : ℚ) := by linarith
    have : (0 : ℤ) < glyph_size size := by exact_mod_cast hpos
    omega
  have h2 : glyph_size size ≤ size := by
    have hlt : ((glyph_size size : ℤ) : ℚ) < (size : ℚ) + 1 := by linarith
    have : glyph_size size < size + 1 := by exact_mod_cast hlt
    omega
  have hsub : 0 ≤ size - glyph_size size := by omega
  have hfd : icon_offset size = (size - glyph_size size) / 2 := by
    rw [icon_offset, Int.fdiv_eq_ediv _ (by norm_num)]
  have ho1 : 0 ≤ icon_offset size := by
    rw [hfd]
    exact Int.ediv_nonneg hsub (by norm_num)
  have ho2 : icon_offset size ≤ size - glyph_size size := by
    rw [hfd]
    exact Int.ediv_le_self 2 hsub
  exact ⟨h1, h2, ho1, by omega⟩

/-- Witness for claim C10 at the concrete icon size 16. -/
theorem glyph_fits_in_icon_witness :
    1 ≤ glyph_size 16 ∧ glyph_size 16 ≤ 16 ∧
    0 ≤ icon_offset 16 ∧ icon_offset 16 + glyph_size 16 ≤ 16 :=
  glyph_fits_in_icon 16 (by decide)
